import Mathlib

/-!
Verification of the control loop of oscillatord (src/oscillatord.c).

The C program is a single-threaded daemon: a do-while loop that decrements an
unsigned 32-bit turn counter at the top of each iteration, waits on the PPS
device with a 4 second timeout via select, reads a 4-byte signed phase-error
sample, optionally skips one sample after a phase jump, collects oscillator
and GNSS state, builds an od_input record, calls the disciplining engine and
dispatches the requested action.  The shallow embedding below mirrors that
code: machine integers are modelled as Int with explicit wrapping modulo
2^32 where C overflow or unsigned wraparound matters, each external call is
an environment field, and one loop iteration is the pure function cycleStep.
-/

set_option maxRecDepth 8000

namespace Oscillatord

/-- Nanoseconds per second, the NS_IN_SECOND constant used by the input
builder of the C code. -/
def NS_IN_SECOND : Int := 1000000000

/-- Linux errno value for an interrupted call. -/
def EINTR : Nat := 4

/-- Linux errno value for a read that would block. -/
def EAGAIN : Nat := 11

/-- Linux errno value reported by a driver without the requested facility. -/
def ENOSYS : Int := 38

/-- Exit code used by every error(EXIT_FAILURE, ...) call in the C code. -/
def EXIT_FAILURE : Nat := 1

/-- Modulus of the C type unsigned int on the target platform. -/
def UINT_MOD : Nat := 4294967296

/-- Two-complement wraparound of a mathematical integer into the range of a
32-bit signed int, the effect of storing an overflowing C int expression. -/
def wrap32 (x : Int) : Int := (x + 2147483648) % 4294967296 - 2147483648

/-- The tv_sec field built at line 237 of oscillatord.c:
sign * phase_error / NS_IN_SECOND with C int arithmetic, hence truncating
division of the 32-bit wrapped product. -/
def phaseSeconds (sign phase_error : Int) : Int :=
  Int.tdiv (wrap32 (sign * phase_error)) NS_IN_SECOND

/-- The tv_nsec field built at line 238 of oscillatord.c:
sign * phase_error % NS_IN_SECOND with C int arithmetic, hence truncating
remainder of the 32-bit wrapped product. -/
def phaseNanoseconds (sign phase_error : Int) : Int :=
  Int.tmod (wrap32 (sign * phase_error)) NS_IN_SECOND

/-- The int32_t value handed to apply_phase_offset on a phase jump:
the C expression -output.value_phase_ctrl, whose negation wraps in 32-bit
signed arithmetic. -/
def phaseJumpWritten (value_phase_ctrl : Int) : Int := wrap32 (-value_phase_ctrl)

/-- The struct timespec split of the phase error. -/
structure Timespec where
  tv_sec : Int
  tv_nsec : Int
  deriving Repr, DecidableEq

/-- The struct od_input record handed to od_process. -/
structure od_input where
  phase_error : Timespec
  valid : Bool
  lock : Bool
  temperature : Nat
  qErr : Int
  fine_setpoint : Int
  coarse_setpoint : Int
  deriving Repr, DecidableEq

/-- Actions the disciplining engine may request. -/
inductive OdAction where
  | NO_OP
  | ADJUST_FINE
  | ADJUST_COARSE
  | PHASE_JUMP
  | CALIBRATE
  deriving Repr, DecidableEq

/-- The struct od_output record produced by od_process. -/
structure od_output where
  setpoint : Nat
  action : OdAction
  value_phase_ctrl : Int
  deriving Repr, DecidableEq

/-- The struct oscillator_ctrl snapshot read each cycle. -/
structure oscillator_ctrl where
  fine_ctrl : Int
  coarse_ctrl : Int
  lock : Bool
  deriving Repr, DecidableEq

/-- Classified result of the select call at line 172. -/
inductive SelectResult where
  | timeout
  | selErr (en : Nat)
  | dataReady
  deriving Repr, DecidableEq

/-- Classified result of the read call at line 186; readOk carries the raw
sample that the 4-byte read deposits into the int32_t phase_error. -/
inductive ReadResult where
  | readErr (en : Nat)
  | readOk (raw : Int)
  deriving Repr, DecidableEq

/-- Result classes of gnss_get_data. -/
inductive GnssStatus where
  | GNSS_INVALID
  | GNSS_WAITING
  | GNSS_VALID
  | GNSS_ERROR
  deriving Repr, DecidableEq

/-- Behaviour of every external call made during one loop iteration. -/
structure CycleEnv where
  sel : SelectResult
  rd : ReadResult
  tempRet : Int
  tempVal : Nat
  gnss : GnssStatus
  qErr : Int
  ctrl : oscillator_ctrl
  odRet : Int
  odOut : od_output
  writeOk : Bool
  calibParamsOk : Bool
  calibResultsOk : Bool
  applyRet : Int
  deriving Repr, DecidableEq

/-- Which error(EXIT_FAILURE, ...) call of the loop body fired, if any. -/
inductive FatalCause where
  | selectTimeout
  | selectFail
  | readFail
  | tempFail
  | gnssFail
  | odFail
  | writeFail
  | calibParamsFail
  | calibResultsFail
  | applyFail
  deriving Repr, DecidableEq

/-- Observable record of what one loop iteration did. -/
structure CycleTrace where
  fatalCause : Option FatalCause
  exitCode : Nat
  retried : Bool
  skippedIgnore : Bool
  builtInput : Option od_input
  written : Option Int
  calibRun : Bool
  calibSubmitted : Bool
  slept : Bool
  deriving Repr, DecidableEq

/-- The mutable loop state: the unsigned turn counter, kept below 2^32, and
the ignore_next_irq flag. -/
structure LoopState where
  turns : Nat
  ignore_next_irq : Bool
  deriving Repr, DecidableEq

/-- Trace plus successor state of one loop iteration. -/
structure CycleResult where
  trace : CycleTrace
  state : LoopState
  deriving Repr, DecidableEq

/-- Trace of an iteration before anything observable happened. -/
def emptyTrace : CycleTrace :=
  { fatalCause := none, exitCode := 0, retried := false, skippedIgnore := false,
    builtInput := none, written := none, calibRun := false,
    calibSubmitted := false, slept := false }

/-- Trace of an iteration killed by error(EXIT_FAILURE, ...). -/
def fatalTrace (c : FatalCause) : CycleTrace :=
  { emptyTrace with fatalCause := some c, exitCode := EXIT_FAILURE }

/-- Trace of an iteration that hit a transient condition and continued. -/
def retryTrace : CycleTrace := { emptyTrace with retried := true }

/-- The turns-- statement at line 166: unsigned 32-bit decrement. -/
def decTurns (t : Nat) : Nat := (t + (UINT_MOD - 1)) % UINT_MOD

/-- The od_input built at lines 235 to 246 from the wrapped sample, the
polarity sign and the collected state. -/
def buildInput (sign phase_error : Int) (pps_valid : Bool) (env : CycleEnv)
    (temperature : Nat) : od_input :=
  { phase_error := ⟨phaseSeconds sign phase_error, phaseNanoseconds sign phase_error⟩,
    valid := pps_valid,
    lock := env.ctrl.lock,
    temperature := temperature,
    qErr := env.qErr,
    fine_setpoint := env.ctrl.fine_ctrl,
    coarse_setpoint := env.ctrl.coarse_ctrl }

/-- The action dispatch at lines 269 to 299: a phase jump writes the wrapped
negation and arms ignore_next_irq, calibration runs its two fallible stages,
every other action goes through oscillator_apply_output. -/
def dispatchAction (turns1 : Nat) (inp : od_input) (env : CycleEnv) : CycleResult :=
  if env.odOut.action = .PHASE_JUMP then
    if env.writeOk then
      ⟨{ emptyTrace with
           builtInput := some inp,
           written := some (phaseJumpWritten env.odOut.value_phase_ctrl),
           slept := true },
       ⟨turns1, true⟩⟩
    else
      ⟨{ fatalTrace FatalCause.writeFail with builtInput := some inp }, ⟨turns1, false⟩⟩
  else if env.odOut.action = .CALIBRATE then
    if env.calibParamsOk then
      if env.calibResultsOk then
        ⟨{ emptyTrace with
             builtInput := some inp,
             calibRun := true,
             calibSubmitted := true,
             slept := true },
         ⟨turns1, false⟩⟩
      else
        ⟨{ fatalTrace FatalCause.calibResultsFail with
             builtInput := some inp,
             calibRun := true },
         ⟨turns1, false⟩⟩
    else
      ⟨{ fatalTrace FatalCause.calibParamsFail with builtInput := some inp }, ⟨turns1, false⟩⟩
  else
    if env.applyRet < 0 then
      ⟨{ fatalTrace .applyFail with builtInput := some inp }, ⟨turns1, false⟩⟩
    else
      ⟨{ emptyTrace with builtInput := some inp, slept := true }, ⟨turns1, false⟩⟩

/-- Lines 201 to 260: temperature read with the ENOSYS soft default, the
GNSS poll, the input build and the od_process call, then the dispatch. -/
def collectAndDispatch (sign : Int) (turns1 : Nat) (phase_error : Int)
    (env : CycleEnv) : CycleResult :=
  if env.tempRet = -ENOSYS ∨ 0 ≤ env.tempRet then
    let temperature : Nat := if env.tempRet = -ENOSYS then 0 else env.tempVal
    if env.gnss = .GNSS_ERROR then
      ⟨fatalTrace .gnssFail, ⟨turns1, false⟩⟩
    else
      let pps_valid : Bool := env.gnss = .GNSS_VALID
      let inp := buildInput sign phase_error pps_valid env temperature
      if env.odRet < 0 then
        ⟨{ fatalTrace FatalCause.odFail with builtInput := some inp }, ⟨turns1, false⟩⟩
      else
        dispatchAction turns1 inp env
  else
    ⟨fatalTrace .tempFail, ⟨turns1, false⟩⟩

/-- One iteration of the do-while loop at lines 165 to 301; the decrement of
the turn counter happens first on every path, transient select and read
failures continue, and a pending ignore_next_irq discards the sample right
after the successful read. -/
def cycleStep (sign : Int) (s : LoopState) (env : CycleEnv) : CycleResult :=
  let turns1 := decTurns s.turns
  match env.sel with
  | .timeout => ⟨fatalTrace .selectTimeout, ⟨turns1, s.ignore_next_irq⟩⟩
  | .selErr en =>
    if en = EINTR then ⟨retryTrace, ⟨turns1, s.ignore_next_irq⟩⟩
    else ⟨fatalTrace .selectFail, ⟨turns1, s.ignore_next_irq⟩⟩
  | .dataReady =>
    match env.rd with
    | .readErr en =>
      if en = EAGAIN ∨ en = EINTR then ⟨retryTrace, ⟨turns1, s.ignore_next_irq⟩⟩
      else ⟨fatalTrace .readFail, ⟨turns1, s.ignore_next_irq⟩⟩
    | .readOk raw =>
      let phase_error := wrap32 raw
      if s.ignore_next_irq then
        ⟨{ emptyTrace with skippedIgnore := true }, ⟨turns1, false⟩⟩
      else
        collectAndDispatch sign turns1 phase_error env

/-- Final fate of a run of the loop under a given stream of environments. -/
inductive RunOutcome where
  | cleanExit (iters : Nat) (code : Nat)
  | fatalExit (iters : Nat) (code : Nat)
  | outOfFuel
  deriving Repr, DecidableEq

/-- Fueled run of the do-while loop with no signal delivered, counting the
iterations entered; after every non-fatal iteration, including a continue,
the condition turns != 1 is re-checked exactly as line 301 does. -/
def runLoop (sign : Int) : Nat → LoopState → (Nat → CycleEnv) → RunOutcome
  | 0, _, _ => .outOfFuel
  | fuel+1, s, envs =>
    let r := cycleStep sign s (envs 0)
    if r.trace.fatalCause.isSome then .fatalExit 1 r.trace.exitCode
    else if r.state.turns = 1 then .cleanExit 1 0
    else
      match runLoop sign fuel r.state (fun i => envs (i+1)) with
      | .cleanExit k c => .cleanExit (k+1) c
      | .fatalExit k c => .fatalExit (k+1) c
      | .outOfFuel => .outOfFuel

/-- An environment whose external calls all succeed: data ready, sample read,
temperature unsupported, GNSS valid, fine adjustment applied cleanly. -/
def benignEnv : CycleEnv :=
  { sel := .dataReady, rd := .readOk 0, tempRet := -ENOSYS, tempVal := 0,
    gnss := .GNSS_VALID, qErr := 0, ctrl := ⟨0, 0, true⟩, odRet := 0,
    odOut := ⟨0, .ADJUST_FINE, 0⟩, writeOk := true, calibParamsOk := true,
    calibResultsOk := true, applyRet := 0 }

/-- An environment never making the iteration fatal, from any state. -/
def nonFatalEnv (e : CycleEnv) : Prop :=
  ∀ (sign : Int) (s : LoopState), (cycleStep sign s e).trace.fatalCause = none

example : (cycleStep 1 ⟨3, false⟩ benignEnv).state = ⟨2, false⟩ := rfl
example : (cycleStep 1 ⟨3, true⟩ benignEnv).trace.skippedIgnore = true := rfl

/-- An environment whose select call is interrupted by a signal. -/
def envEintr : CycleEnv := { benignEnv with sel := .selErr EINTR }

theorem wrap32_eq (x : Int) (hlo : -2147483648 ≤ x) (hhi : x < 2147483648) :
    wrap32 x = x := by
  unfold wrap32
  have h0 : (0 : Int) ≤ x + 2147483648 := by omega
  have h1 : x + 2147483648 < 4294967296 := by omega
  rw [Int.emod_eq_of_lt h0 h1]
  omega

theorem decTurns_lt (t : Nat) : decTurns t < UINT_MOD := by
  unfold decTurns UINT_MOD
  exact Nat.mod_lt _ (by norm_num)

theorem decTurns_eq (t : Nat) (h1 : 1 ≤ t) (h2 : t < UINT_MOD) :
    decTurns t = t - 1 := by
  unfold decTurns UINT_MOD at *
  have h3 : t + (4294967296 - 1) = (t - 1) + 4294967296 := by omega
  rw [h3, Nat.add_mod_right, Nat.mod_eq_of_lt (by omega)]

theorem decTurns_zero : decTurns 0 = UINT_MOD - 1 := by decide

theorem state_turns (sign : Int) (s : LoopState) (env : CycleEnv) :
    (cycleStep sign s env).state.turns = decTurns s.turns := by
  rcases env with ⟨sel, rd, tR, tV, g, q, c, oR, oO, w, cp, cr, aR⟩
  cases sel with
  | timeout => rfl
  | selErr en =>
    simp only [cycleStep]
    split <;> rfl
  | dataReady =>
    cases rd with
    | readErr en =>
      simp only [cycleStep]
      split <;> rfl
    | readOk raw =>
      simp only [cycleStep, collectAndDispatch, dispatchAction]
      repeat' split
      all_goals rfl

theorem readOk_not_retried (sign : Int) (s : LoopState) (rd : ReadResult)
    (tR : Int) (tV : Nat) (g : GnssStatus) (q : Int) (c : oscillator_ctrl)
    (oR : Int) (oO : od_output) (w cp cr : Bool) (aR : Int) (raw : Int)
    (hrd : rd = .readOk raw) :
    (cycleStep sign s ⟨.dataReady, rd, tR, tV, g, q, c, oR, oO, w, cp, cr, aR⟩).trace.retried
      = false := by
  subst hrd
  simp only [cycleStep, collectAndDispatch, dispatchAction]
  repeat' split
  all_goals rfl

theorem retried_preserves_ignore (sign : Int) (s : LoopState) (env : CycleEnv)
    (h : (cycleStep sign s env).trace.retried = true) :
    (cycleStep sign s env).state.ignore_next_irq = s.ignore_next_irq := by
  rcases s with ⟨t, ig⟩
  rcases env with ⟨sel, rd, tR, tV, g, q, c, oR, oO, w, cp, cr, aR⟩
  cases sel with
  | timeout => rfl
  | selErr en =>
    simp only [cycleStep]
    split <;> rfl
  | dataReady =>
    cases rd with
    | readErr en =>
      simp only [cycleStep]
      split <;> rfl
    | readOk raw =>
      have hf := readOk_not_retried sign ⟨t, ig⟩ (.readOk raw) tR tV g q c oR oO w cp cr aR raw rfl
      rw [hf] at h
      exact absurd h (by simp)

theorem benign_nonFatal : nonFatalEnv benignEnv := by
  intro sign s
  rcases s with ⟨t, ig⟩
  cases ig <;> rfl

theorem envEintr_nonFatal : nonFatalEnv envEintr := by
  intro sign s
  rcases s with ⟨t, ig⟩
  rfl

/-- Number of loop iterations executed from a given turn-counter value until
the condition at line 301 stops the loop, assuming no fatal error and no
signal: the counter is decremented modulo 2^32 each iteration and the loop
exits once it equals 1. -/
def itersFor (n : Nat) : Nat :=
  if 2 ≤ n then n - 1 else if n = 1 then UINT_MOD else UINT_MOD - 1

theorem itersFor_pos (n : Nat) : 1 ≤ itersFor n := by
  unfold itersFor UINT_MOD
  split <;> try omega
  split <;> omega

theorem decTurns_step (n : Nat) (hn : n < UINT_MOD) (h2 : n ≠ 2) :
    decTurns n ≠ 1 ∧ itersFor n = itersFor (decTurns n) + 1 := by
  rcases Nat.eq_zero_or_pos n with h0 | h0
  · subst h0
    rw [decTurns_zero]
    unfold itersFor UINT_MOD
    norm_num
  · rw [decTurns_eq n h0 hn]
    unfold itersFor UINT_MOD at *
    rcases Nat.lt_or_ge n 2 with hl | hl
    · have : n = 1 := by omega
      subst this
      norm_num
    · have h3 : 3 ≤ n := by omega
      constructor <;> [omega; skip]
      rw [if_pos (by omega : 2 ≤ n), if_pos (by omega : 2 ≤ n - 1)]
      omega

theorem decTurns_two : decTurns 2 = 1 := by decide

theorem itersFor_two : itersFor 2 = 1 := by decide

/-- Core run lemma: under any stream of non-fatal environments and with
enough fuel, the loop started at turn counter n exits cleanly after exactly
itersFor n iterations. -/
theorem runLoop_clean (sign : Int) :
    ∀ (fuel : Nat) (st : LoopState) (envs : Nat → CycleEnv),
      st.turns < UINT_MOD → (∀ i, nonFatalEnv (envs i)) → itersFor st.turns ≤ fuel →
      runLoop sign fuel st envs = .cleanExit (itersFor st.turns) 0 := by
  intro fuel
  induction fuel with
  | zero =>
    intro st envs hn hnf hle
    exact absurd (Nat.le_trans (itersFor_pos st.turns) hle) (by omega)
  | succ f ih =>
    intro st envs hn hnf hle
    have hstep : (cycleStep sign st (envs 0)).trace.fatalCause = none := hnf 0 sign st
    have hturns : (cycleStep sign st (envs 0)).state.turns = decTurns st.turns :=
      state_turns sign st (envs 0)
    by_cases h2 : st.turns = 2
    · simp only [runLoop, hstep, Option.isSome_none, Bool.false_eq_true, if_false,
        hturns, h2, decTurns_two, itersFor_two]
      simp
    · obtain ⟨hne1, hiter⟩ := decTurns_step st.turns hn h2
      have hrec := ih (cycleStep sign st (envs 0)).state (fun i => envs (i + 1))
        (by rw [hturns]; exact decTurns_lt _) (fun i => hnf (i + 1))
        (by rw [hturns]; omega)
      simp only [runLoop, hstep, Option.isSome_none, Bool.false_eq_true, if_false,
        hrec, hturns, if_neg hne1, hiter]

/-- C1 (amended): for every 32-bit sample s and polarity p in {+1, -1},
except the single corner p = -1 with s = -2^31 where the C product overflows
and wraps, the ControlInput split satisfies
seconds * NS_IN_SECOND + nanoseconds = p * s with truncating semantics, the
nanoseconds equal p * s outright when seconds is zero, and the scenario
s = -1500000000 with p = -1 gives seconds 1 and nanoseconds 500000000. -/
theorem C1_split_roundtrip (s p : Int)
    (hlo : -2147483648 ≤ s) (hhi : s < 2147483648)
    (hp : p = 1 ∨ p = -1)
    (hcorner : ¬(p = -1 ∧ s = -2147483648)) :
    phaseSeconds p s * NS_IN_SECOND + phaseNanoseconds p s = p * s ∧
    (phaseSeconds p s = 0 → phaseNanoseconds p s = p * s) ∧
    phaseSeconds (-1) (-1500000000) = 1 ∧
    phaseNanoseconds (-1) (-1500000000) = 500000000 := by
  have hw : wrap32 (p * s) = p * s := by
    rcases hp with h | h <;> subst h <;> apply wrap32_eq <;> omega
  have hmain : phaseSeconds p s * NS_IN_SECOND + phaseNanoseconds p s = p * s := by
    unfold phaseSeconds phaseNanoseconds
    rw [hw]
    have h5 := Int.tdiv_add_tmod (p * s) NS_IN_SECOND
    rw [Int.mul_comm] at h5
    exact h5
  have hz : phaseSeconds p s = 0 → phaseNanoseconds p s = p * s := by
    intro h0
    have h6 := hmain
    rw [h0, zero_mul, zero_add] at h6
    exact h6
  exact ⟨hmain, hz, by decide, by decide⟩

/-- C1 witness: the theorem applied at the spec scenario sample -1500000000
with polarity -1. -/
theorem C1_split_roundtrip_witness :
    phaseSeconds (-1) (-1500000000) * NS_IN_SECOND
        + phaseNanoseconds (-1) (-1500000000) = (-1) * (-1500000000) ∧
    (phaseSeconds (-1) (-1500000000) = 0 →
        phaseNanoseconds (-1) (-1500000000) = (-1) * (-1500000000)) ∧
    phaseSeconds (-1) (-1500000000) = 1 ∧
    phaseNanoseconds (-1) (-1500000000) = 500000000 :=
  C1_split_roundtrip (-1500000000) (-1) (by decide) (by decide) (Or.inr rfl)
    (by decide)

/-- C1 counterexample: at sample -2^31 with polarity -1 the C product
sign * phase_error overflows and wraps back to -2^31, so the split does not
recombine to p * s = 2^31 as the claim states for every 32-bit sample. -/
theorem C1_split_corner_violation :
    phaseSeconds (-1) (-2147483648) * NS_IN_SECOND
        + phaseNanoseconds (-1) (-2147483648) ≠ (-1) * (-2147483648) := by
  decide

/-- C7 (confirmed): a timeout of the select wait makes the iteration fatal
with the nonzero exit code EXIT_FAILURE, from any prior loop state, and is
never classified as a transient retry. -/
theorem C7_timeout_fatal (sign : Int) (s : LoopState) (env : CycleEnv)
    (hsel : env.sel = .timeout) :
    (cycleStep sign s env).trace.fatalCause = some .selectTimeout ∧
    (cycleStep sign s env).trace.exitCode = EXIT_FAILURE ∧
    (cycleStep sign s env).trace.exitCode ≠ 0 ∧
    (cycleStep sign s env).trace.retried = false := by
  rcases s with ⟨t, ig⟩
  rcases env with ⟨sel, rd, tR, tV, g, q, c, oR, oO, w, cp, cr, aR⟩
  subst hsel
  refine ⟨rfl, rfl, ?_, rfl⟩
  intro h
  simp [cycleStep, fatalTrace, emptyTrace, EXIT_FAILURE] at h

/-- C7 witness: the theorem applied to a concrete state and environment. -/
theorem C7_timeout_fatal_witness :
    (cycleStep 1 ⟨5, false⟩ { benignEnv with sel := .timeout }).trace.fatalCause
        = some .selectTimeout ∧
    (cycleStep 1 ⟨5, false⟩ { benignEnv with sel := .timeout }).trace.exitCode
        = EXIT_FAILURE ∧
    (cycleStep 1 ⟨5, false⟩ { benignEnv with sel := .timeout }).trace.exitCode ≠ 0 ∧
    (cycleStep 1 ⟨5, false⟩ { benignEnv with sel := .timeout }).trace.retried = false :=
  C7_timeout_fatal 1 ⟨5, false⟩ { benignEnv with sel := .timeout } rfl

/-- C9 (confirmed): for a 32-bit value_phase_ctrl other than -2^31 the value
written on a phase jump is the exact mathematical negation, and for -2^31 the
C negation wraps modulo 2^32 back to -2^31 so the device receives the
un-negated offset. -/
theorem C9_phase_jump_negation (v : Int)
    (hlo : -2147483648 ≤ v) (hhi : v < 2147483648) :
    (v ≠ -2147483648 → phaseJumpWritten v = -v) ∧
    (v = -2147483648 → phaseJumpWritten v = v) := by
  constructor
  · intro hne
    unfold phaseJumpWritten
    apply wrap32_eq <;> omega
  · intro he
    subst he
    decide

/-- C9 witness: the theorem applied at value_phase_ctrl = 200. -/
theorem C9_phase_jump_negation_witness :
    ((200 : Int) ≠ -2147483648 → phaseJumpWritten 200 = -200) ∧
    ((200 : Int) = -2147483648 → phaseJumpWritten 200 = 200) :=
  C9_phase_jump_negation 200 (by decide) (by decide)

theorem ignore_skips (sign : Int) (s : LoopState) (env : CycleEnv) (raw : Int)
    (hig : s.ignore_next_irq = true) (hsel : env.sel = .dataReady)
    (hrd : env.rd = .readOk raw) :
    (cycleStep sign s env).trace.skippedIgnore = true ∧
    (cycleStep sign s env).trace.builtInput = none ∧
    (cycleStep sign s env).state.ignore_next_irq = false := by
  rcases s with ⟨t, ig⟩
  rcases env with ⟨sel, rd, tR, tV, g, q, c, oR, oO, w, cp, cr, aR⟩
  subst hsel hrd
  simp only at hig
  subst hig
  exact ⟨rfl, rfl, rfl⟩

theorem no_skip_without_flag (sign : Int) (s : LoopState) (env : CycleEnv)
    (hig : s.ignore_next_irq = false) :
    (cycleStep sign s env).trace.skippedIgnore = false := by
  rcases s with ⟨t, ig⟩
  simp only at hig
  subst hig
  rcases env with ⟨sel, rd, tR, tV, g, q, c, oR, oO, w, cp, cr, aR⟩
  cases sel with
  | timeout => rfl
  | selErr en =>
    simp only [cycleStep]
    split <;> rfl
  | dataReady =>
    cases rd with
    | readErr en =>
      simp only [cycleStep]
      split <;> rfl
    | readOk raw =>
      simp only [cycleStep, collectAndDispatch, dispatchAction]
      repeat' split
      all_goals try rfl
      all_goals simp_all

/-- C3 (amended): for every configured turns value n with 2 <= n < 2^32,
absent signals and fatal errors, the loop body executes exactly n - 1 times
and the run ends cleanly with exit code 0; the n = 1 case instead wraps the
unsigned counter and runs 2^32 iterations. -/
theorem C3_turns_execution_count (sign : Int) (n fuel : Nat) (ig : Bool)
    (envs : Nat → CycleEnv) (h2 : 2 ≤ n) (hlt : n < UINT_MOD)
    (hnf : ∀ i, nonFatalEnv (envs i)) (hfuel : n - 1 ≤ fuel) :
    runLoop sign fuel ⟨n, ig⟩ envs = .cleanExit (n - 1) 0 := by
  have hi : itersFor n = n - 1 := by
    unfold itersFor
    rw [if_pos h2]
  have h := runLoop_clean sign fuel ⟨n, ig⟩ envs hlt hnf (by simpa [hi] using hfuel)
  simpa [hi] using h

/-- C3 witness: the theorem applied at the spec scenario turns = 3, which
executes the loop body exactly 2 times. -/
theorem C3_turns_execution_count_witness :
    runLoop 1 2 ⟨3, false⟩ (fun _ => benignEnv) = .cleanExit 2 0 :=
  C3_turns_execution_count 1 3 2 false (fun _ => benignEnv) (by decide)
    (by decide) (fun _ => benign_nonFatal) (by decide)

/-- C3 counterexample: for the nonzero configured value turns = 1 the loop
body does not execute 1 - 1 = 0 times; the unsigned decrement wraps through
zero and the body executes 4294967296 times before the clean exit. -/
theorem C3_turns_one_wraps :
    runLoop 1 4294967296 ⟨1, false⟩ (fun _ => benignEnv)
        = .cleanExit 4294967296 0 ∧
    (4294967296 : Nat) ≠ 1 - 1 := by
  constructor
  · have h := runLoop_clean 1 4294967296 ⟨1, false⟩ (fun _ => benignEnv)
      (by decide) (fun _ => benign_nonFatal) (by decide)
    simpa [itersFor, UINT_MOD] using h
  · decide

/-- C4 (amended): with turns configured as 0 the counter wraps to 2^32 - 1
on the first decrement, so the loop is not unbounded: absent signals and
fatal errors it is terminated by the turn counter itself after exactly
2^32 - 1 iterations. -/
theorem C4_turns_zero_wraps (sign : Int) (fuel : Nat) (ig : Bool)
    (envs : Nat → CycleEnv) (hnf : ∀ i, nonFatalEnv (envs i))
    (hfuel : UINT_MOD - 1 ≤ fuel) :
    runLoop sign fuel ⟨0, ig⟩ envs = .cleanExit (UINT_MOD - 1) 0 := by
  have hi : itersFor 0 = UINT_MOD - 1 := by decide
  have h := runLoop_clean sign fuel ⟨0, ig⟩ envs
    (by show (0 : Nat) < UINT_MOD; decide) hnf (by simpa [hi] using hfuel)
  simpa [hi] using h

/-- C4 witness: the theorem applied at a concrete fuel bound. -/
theorem C4_turns_zero_wraps_witness :
    runLoop 1 4294967296 ⟨0, false⟩ (fun _ => benignEnv)
        = .cleanExit (UINT_MOD - 1) 0 :=
  C4_turns_zero_wraps 1 4294967296 false (fun _ => benignEnv)
    (fun _ => benign_nonFatal) (by decide)

/-- C4 counterexample: with turns = 0, no signal ever delivered (runLoop
models a signal-free run) and every external call succeeding, the loop is
nevertheless terminated by the turn counter after 4294967295 iterations,
refuting the claim that it is never terminated by the counter. -/
theorem C4_turns_zero_terminates :
    runLoop 1 4294967295 ⟨0, false⟩ (fun _ => benignEnv)
        = .cleanExit 4294967295 0 := by
  have h := runLoop_clean 1 4294967295 ⟨0, false⟩ (fun _ => benignEnv)
    (by decide) (fun _ => benign_nonFatal) (by decide)
  simpa [itersFor, UINT_MOD] using h

/-- C5 (amended): a select wait failing with EINTR, or a read failing with
EAGAIN or EINTR, never terminates the process and performs no dispatch, no
sleep and no input build, and leaves ignore_next_irq unchanged; but the
turn counter is not unchanged: it was already decremented at the top of the
iteration, so the retry consumes one turn. -/
theorem C5_transient_retry (sign : Int) (s : LoopState) (env : CycleEnv)
    (htrans : env.sel = .selErr EINTR ∨
      (env.sel = .dataReady ∧
        (env.rd = .readErr EAGAIN ∨ env.rd = .readErr EINTR))) :
    (cycleStep sign s env).trace.retried = true ∧
    (cycleStep sign s env).trace.fatalCause = none ∧
    (cycleStep sign s env).trace.slept = false ∧
    (cycleStep sign s env).trace.builtInput = none ∧
    (cycleStep sign s env).state.ignore_next_irq = s.ignore_next_irq ∧
    (cycleStep sign s env).state.turns = decTurns s.turns := by
  rcases s with ⟨t, ig⟩
  rcases env with ⟨sel, rd, tR, tV, g, q, c, oR, oO, w, cp, cr, aR⟩
  rcases htrans with h | ⟨h1, h2⟩
  · subst h
    exact ⟨rfl, rfl, rfl, rfl, rfl, rfl⟩
  · subst h1
    rcases h2 with h2 | h2 <;> subst h2 <;> exact ⟨rfl, rfl, rfl, rfl, rfl, rfl⟩

/-- C5 witness: the theorem applied to an interrupted select on a concrete
state. -/
theorem C5_transient_retry_witness :
    (cycleStep 1 ⟨7, true⟩ envEintr).trace.retried = true ∧
    (cycleStep 1 ⟨7, true⟩ envEintr).trace.fatalCause = none ∧
    (cycleStep 1 ⟨7, true⟩ envEintr).trace.slept = false ∧
    (cycleStep 1 ⟨7, true⟩ envEintr).trace.builtInput = none ∧
    (cycleStep 1 ⟨7, true⟩ envEintr).state.ignore_next_irq = true ∧
    (cycleStep 1 ⟨7, true⟩ envEintr).state.turns = decTurns 7 :=
  C5_transient_retry 1 ⟨7, true⟩ envEintr (Or.inl rfl)

/-- C5 counterexample: starting from turn counter 2, an EINTR retry leaves
the counter at 1, not at its previous value, and the subsequent condition
check terminates the loop instead of restarting the wait, refuting the
no-loop-state-change reading of the claim. -/
theorem C5_retry_consumes_turn :
    (cycleStep 1 ⟨2, false⟩ envEintr).trace.retried = true ∧
    (cycleStep 1 ⟨2, false⟩ envEintr).state.turns ≠ 2 ∧
    runLoop 1 4 ⟨2, false⟩ (fun _ => envEintr) = .cleanExit 1 0 := by
  refine ⟨rfl, by decide, ?_⟩
  have h := runLoop_clean 1 4 ⟨2, false⟩ (fun _ => envEintr) (by decide)
    (fun _ => envEintr_nonFatal) (by decide)
  simpa [itersFor] using h


/-- C2 (amended): on a PHASE_JUMP dispatch the value written to the PPS
device is the 32-bit wrapping negation of value_phase_ctrl, which equals the
exact negation whenever value_phase_ctrl is not -2^31 (the 200 to -200
scenario included); a failed write is fatal; on success ignore_next_irq is
armed, the first later cycle whose read succeeds skips the collector,
builder, decision and dispatch stages and clears the flag, no cycle skips
without the flag, and transient retries leave the flag unchanged, so the
flag causes exactly one skipped cycle once a read succeeds. -/
theorem C2_phase_jump_dispatch (sign : Int) (t : Nat) (raw tR : Int) (tV : Nat)
    (g : GnssStatus) (q : Int) (c : oscillator_ctrl) (oR : Int) (sp : Nat)
    (vpc : Int) (w cp cr : Bool) (aR : Int)
    (htemp : tR = -ENOSYS ∨ 0 ≤ tR) (hgnss : g ≠ .GNSS_ERROR) (hod : 0 ≤ oR) :
    (w = true →
      (cycleStep sign ⟨t, false⟩
          ⟨.dataReady, .readOk raw, tR, tV, g, q, c, oR, ⟨sp, .PHASE_JUMP, vpc⟩,
            w, cp, cr, aR⟩).trace.written = some (phaseJumpWritten vpc) ∧
      (cycleStep sign ⟨t, false⟩
          ⟨.dataReady, .readOk raw, tR, tV, g, q, c, oR, ⟨sp, .PHASE_JUMP, vpc⟩,
            w, cp, cr, aR⟩).trace.fatalCause = none ∧
      (cycleStep sign ⟨t, false⟩
          ⟨.dataReady, .readOk raw, tR, tV, g, q, c, oR, ⟨sp, .PHASE_JUMP, vpc⟩,
            w, cp, cr, aR⟩).state.ignore_next_irq = true) ∧
    (w = false →
      (cycleStep sign ⟨t, false⟩
          ⟨.dataReady, .readOk raw, tR, tV, g, q, c, oR, ⟨sp, .PHASE_JUMP, vpc⟩,
            w, cp, cr, aR⟩).trace.fatalCause = some .writeFail ∧
      (cycleStep sign ⟨t, false⟩
          ⟨.dataReady, .readOk raw, tR, tV, g, q, c, oR, ⟨sp, .PHASE_JUMP, vpc⟩,
            w, cp, cr, aR⟩).trace.exitCode ≠ 0) ∧
    phaseJumpWritten 200 = -200 ∧
    (∀ (s2 : LoopState) (env2 : CycleEnv) (raw2 : Int),
      s2.ignore_next_irq = true → env2.sel = .dataReady →
      env2.rd = .readOk raw2 →
      (cycleStep sign s2 env2).trace.skippedIgnore = true ∧
      (cycleStep sign s2 env2).trace.builtInput = none ∧
      (cycleStep sign s2 env2).state.ignore_next_irq = false) ∧
    (∀ (s3 : LoopState) (env3 : CycleEnv), s3.ignore_next_irq = false →
      (cycleStep sign s3 env3).trace.skippedIgnore = false) ∧
    (∀ (s4 : LoopState) (env4 : CycleEnv),
      (cycleStep sign s4 env4).trace.retried = true →
      (cycleStep sign s4 env4).state.ignore_next_irq = s4.ignore_next_irq) := by
  have hod2 : ¬ oR < 0 := by omega
  refine ⟨?_, ?_, by decide,
    fun s2 env2 raw2 a b c2 => ignore_skips sign s2 env2 raw2 a b c2,
    fun s3 env3 a => no_skip_without_flag sign s3 env3 a,
    fun s4 env4 a => retried_preserves_ignore sign s4 env4 a⟩
  · intro hw
    subst hw
    simp [cycleStep, collectAndDispatch, dispatchAction, htemp, hgnss, hod2,
      fatalTrace, emptyTrace]
  · intro hw
    subst hw
    simp [cycleStep, collectAndDispatch, dispatchAction, htemp, hgnss, hod2,
      fatalTrace, emptyTrace, EXIT_FAILURE]

/-- C2 witness: the theorem applied at the spec scenario, a phase jump of
200 ns in an otherwise healthy cycle. -/
theorem C2_phase_jump_dispatch_witness :
    (true = true →
      (cycleStep 1 ⟨9, false⟩
          ⟨.dataReady, .readOk 0, 0, 0, .GNSS_VALID, 0, ⟨0, 0, true⟩, 0,
            ⟨0, .PHASE_JUMP, 200⟩, true, true, true, 0⟩).trace.written
          = some (phaseJumpWritten 200) ∧
      (cycleStep 1 ⟨9, false⟩
          ⟨.dataReady, .readOk 0, 0, 0, .GNSS_VALID, 0, ⟨0, 0, true⟩, 0,
            ⟨0, .PHASE_JUMP, 200⟩, true, true, true, 0⟩).trace.fatalCause = none ∧
      (cycleStep 1 ⟨9, false⟩
          ⟨.dataReady, .readOk 0, 0, 0, .GNSS_VALID, 0, ⟨0, 0, true⟩, 0,
            ⟨0, .PHASE_JUMP, 200⟩, true, true, true, 0⟩).state.ignore_next_irq
          = true) ∧
    (true = false →
      (cycleStep 1 ⟨9, false⟩
          ⟨.dataReady, .readOk 0, 0, 0, .GNSS_VALID, 0, ⟨0, 0, true⟩, 0,
            ⟨0, .PHASE_JUMP, 200⟩, true, true, true, 0⟩).trace.fatalCause
          = some .writeFail ∧
      (cycleStep 1 ⟨9, false⟩
          ⟨.dataReady, .readOk 0, 0, 0, .GNSS_VALID, 0, ⟨0, 0, true⟩, 0,
            ⟨0, .PHASE_JUMP, 200⟩, true, true, true, 0⟩).trace.exitCode ≠ 0) ∧
    phaseJumpWritten 200 = -200 ∧
    (∀ (s2 : LoopState) (env2 : CycleEnv) (raw2 : Int),
      s2.ignore_next_irq = true → env2.sel = .dataReady →
      env2.rd = .readOk raw2 →
      (cycleStep 1 s2 env2).trace.skippedIgnore = true ∧
      (cycleStep 1 s2 env2).trace.builtInput = none ∧
      (cycleStep 1 s2 env2).state.ignore_next_irq = false) ∧
    (∀ (s3 : LoopState) (env3 : CycleEnv), s3.ignore_next_irq = false →
      (cycleStep 1 s3 env3).trace.skippedIgnore = false) ∧
    (∀ (s4 : LoopState) (env4 : CycleEnv),
      (cycleStep 1 s4 env4).trace.retried = true →
      (cycleStep 1 s4 env4).state.ignore_next_irq = s4.ignore_next_irq) :=
  C2_phase_jump_dispatch 1 9 0 0 0 .GNSS_VALID 0 ⟨0, 0, true⟩ 0 0 200
    true true true 0 (Or.inr (by decide)) (by decide) (by decide)

/-- C2 counterexample: at value_phase_ctrl = -2^31 the C negation wraps in
32-bit arithmetic and the device is written -2^31 itself, not the exact
mathematical negation the claim asserts. -/
theorem C2_phase_jump_negation_corner :
    phaseJumpWritten (-2147483648) ≠ -(-2147483648) := by decide


theorem dispatch_builtInput (turns1 : Nat) (inp : od_input) (env : CycleEnv) :
    (dispatchAction turns1 inp env).trace.builtInput = some inp := by
  simp only [dispatchAction]
  repeat' split
  all_goals rfl

theorem dispatch_not_gnssFail (turns1 : Nat) (inp : od_input) (env : CycleEnv) :
    (dispatchAction turns1 inp env).trace.fatalCause ≠ some .gnssFail := by
  simp only [dispatchAction]
  repeat' split
  all_goals simp [fatalTrace, emptyTrace]

theorem cycleStep_readOk (sign : Int) (t : Nat) (raw tR : Int) (tV : Nat)
    (g : GnssStatus) (q : Int) (c : oscillator_ctrl) (oR : Int)
    (oO : od_output) (w cp cr : Bool) (aR : Int) :
    cycleStep sign ⟨t, false⟩
        ⟨.dataReady, .readOk raw, tR, tV, g, q, c, oR, oO, w, cp, cr, aR⟩
      = collectAndDispatch sign (decTurns t) (wrap32 raw)
          ⟨.dataReady, .readOk raw, tR, tV, g, q, c, oR, oO, w, cp, cr, aR⟩ := rfl

theorem collect_trace (sign : Int) (turns1 : Nat) (pe : Int) (env : CycleEnv)
    (htemp : env.tempRet = -ENOSYS ∨ 0 ≤ env.tempRet)
    (hgnss : env.gnss ≠ .GNSS_ERROR) :
    (collectAndDispatch sign turns1 pe env).trace.builtInput
        = some (buildInput sign pe (decide (env.gnss = .GNSS_VALID)) env
            (if env.tempRet = -ENOSYS then 0 else env.tempVal)) ∧
    (collectAndDispatch sign turns1 pe env).trace.fatalCause ≠ some .gnssFail := by
  simp only [collectAndDispatch]
  rw [if_pos htemp, if_neg hgnss]
  constructor
  · split
    · rfl
    · exact dispatch_builtInput turns1 _ env
  · split
    · simp [fatalTrace, emptyTrace]
    · exact dispatch_not_gnssFail turns1 _ env

/-- C6 (confirmed): a GNSS poll of INVALID or WAITING never fires the GNSS
fatal error and always builds the cycle input with valid = false, VALID
builds it with valid = true, and ERROR makes the iteration fatal with a
nonzero exit code before any input is built. -/
theorem C6_gnss_validity (sign : Int) (t : Nat) (raw tR : Int) (tV : Nat)
    (g : GnssStatus) (q : Int) (c : oscillator_ctrl) (oR : Int)
    (oO : od_output) (w cp cr : Bool) (aR : Int)
    (htemp : tR = -ENOSYS ∨ 0 ≤ tR) :
    ((g = .GNSS_INVALID ∨ g = .GNSS_WAITING) →
      (cycleStep sign ⟨t, false⟩
          ⟨.dataReady, .readOk raw, tR, tV, g, q, c, oR, oO, w, cp, cr,
            aR⟩).trace.fatalCause ≠ some .gnssFail ∧
      ∃ inp, (cycleStep sign ⟨t, false⟩
          ⟨.dataReady, .readOk raw, tR, tV, g, q, c, oR, oO, w, cp, cr,
            aR⟩).trace.builtInput = some inp ∧ inp.valid = false) ∧
    (g = .GNSS_VALID →
      ∃ inp, (cycleStep sign ⟨t, false⟩
          ⟨.dataReady, .readOk raw, tR, tV, g, q, c, oR, oO, w, cp, cr,
            aR⟩).trace.builtInput = some inp ∧ inp.valid = true) ∧
    (g = .GNSS_ERROR →
      (cycleStep sign ⟨t, false⟩
          ⟨.dataReady, .readOk raw, tR, tV, g, q, c, oR, oO, w, cp, cr,
            aR⟩).trace.fatalCause = some .gnssFail ∧
      (cycleStep sign ⟨t, false⟩
          ⟨.dataReady, .readOk raw, tR, tV, g, q, c, oR, oO, w, cp, cr,
            aR⟩).trace.builtInput = none ∧
      (cycleStep sign ⟨t, false⟩
          ⟨.dataReady, .readOk raw, tR, tV, g, q, c, oR, oO, w, cp, cr,
            aR⟩).trace.exitCode ≠ 0) := by
  refine ⟨?_, ?_, ?_⟩
  · rintro (h | h) <;> subst h <;> rw [cycleStep_readOk]
    · obtain ⟨hb, hf⟩ := collect_trace sign (decTurns t) (wrap32 raw)
        ⟨.dataReady, .readOk raw, tR, tV, .GNSS_INVALID, q, c, oR, oO, w, cp,
          cr, aR⟩ htemp (by simp)
      exact ⟨hf, ⟨_, hb, rfl⟩⟩
    · obtain ⟨hb, hf⟩ := collect_trace sign (decTurns t) (wrap32 raw)
        ⟨.dataReady, .readOk raw, tR, tV, .GNSS_WAITING, q, c, oR, oO, w, cp,
          cr, aR⟩ htemp (by simp)
      exact ⟨hf, ⟨_, hb, rfl⟩⟩
  · intro h
    subst h
    rw [cycleStep_readOk]
    obtain ⟨hb, hf⟩ := collect_trace sign (decTurns t) (wrap32 raw)
      ⟨.dataReady, .readOk raw, tR, tV, .GNSS_VALID, q, c, oR, oO, w, cp,
        cr, aR⟩ htemp (by simp)
    exact ⟨_, hb, rfl⟩
  · intro h
    subst h
    rw [cycleStep_readOk]
    simp only [collectAndDispatch]
    rw [if_pos htemp]
    simp [fatalTrace, emptyTrace, EXIT_FAILURE]

/-- C6 witness: the theorem applied to a concrete healthy cycle polling
GNSS_INVALID. -/
theorem C6_gnss_validity_witness :
    ((GnssStatus.GNSS_INVALID = .GNSS_INVALID ∨
        GnssStatus.GNSS_INVALID = .GNSS_WAITING) →
      (cycleStep 1 ⟨4, false⟩
          ⟨.dataReady, .readOk 0, 0, 0, .GNSS_INVALID, 0, ⟨0, 0, true⟩, 0,
            ⟨0, .ADJUST_FINE, 0⟩, true, true, true, 0⟩).trace.fatalCause
          ≠ some .gnssFail ∧
      ∃ inp, (cycleStep 1 ⟨4, false⟩
          ⟨.dataReady, .readOk 0, 0, 0, .GNSS_INVALID, 0, ⟨0, 0, true⟩, 0,
            ⟨0, .ADJUST_FINE, 0⟩, true, true, true, 0⟩).trace.builtInput
          = some inp ∧ inp.valid = false) ∧
    (GnssStatus.GNSS_INVALID = .GNSS_VALID →
      ∃ inp, (cycleStep 1 ⟨4, false⟩
          ⟨.dataReady, .readOk 0, 0, 0, .GNSS_INVALID, 0, ⟨0, 0, true⟩, 0,
            ⟨0, .ADJUST_FINE, 0⟩, true, true, true, 0⟩).trace.builtInput
          = some inp ∧ inp.valid = true) ∧
    (GnssStatus.GNSS_INVALID = .GNSS_ERROR →
      (cycleStep 1 ⟨4, false⟩
          ⟨.dataReady, .readOk 0, 0, 0, .GNSS_INVALID, 0, ⟨0, 0, true⟩, 0,
            ⟨0, .ADJUST_FINE, 0⟩, true, true, true, 0⟩).trace.fatalCause
          = some .gnssFail ∧
      (cycleStep 1 ⟨4, false⟩
          ⟨.dataReady, .readOk 0, 0, 0, .GNSS_INVALID, 0, ⟨0, 0, true⟩, 0,
            ⟨0, .ADJUST_FINE, 0⟩, true, true, true, 0⟩).trace.builtInput
          = none ∧
      (cycleStep 1 ⟨4, false⟩
          ⟨.dataReady, .readOk 0, 0, 0, .GNSS_INVALID, 0, ⟨0, 0, true⟩, 0,
            ⟨0, .ADJUST_FINE, 0⟩, true, true, true, 0⟩).trace.exitCode ≠ 0) :=
  C6_gnss_validity 1 4 0 0 0 .GNSS_INVALID 0 ⟨0, 0, true⟩ 0
    ⟨0, .ADJUST_FINE, 0⟩ true true true 0 (Or.inr (by decide))

/-- C8 (confirmed): on a CALIBRATE dispatch a null parameter fetch is fatal
with a nonzero exit code and run_calibration is never attempted; a null
calibration result is likewise fatal after the run; and only when both
succeed are the results submitted back via od_calibrate. -/
theorem C8_calibration_flow (sign : Int) (t : Nat) (raw tR : Int) (tV : Nat)
    (g : GnssStatus) (q : Int) (c : oscillator_ctrl) (oR : Int) (sp : Nat)
    (vpc : Int) (w cp cr : Bool) (aR : Int)
    (htemp : tR = -ENOSYS ∨ 0 ≤ tR) (hgnss : g ≠ .GNSS_ERROR) (hod : 0 ≤ oR) :
    (cp = false →
      (cycleStep sign ⟨t, false⟩
          ⟨.dataReady, .readOk raw, tR, tV, g, q, c, oR, ⟨sp, .CALIBRATE, vpc⟩,
            w, cp, cr, aR⟩).trace.fatalCause = some .calibParamsFail ∧
      (cycleStep sign ⟨t, false⟩
          ⟨.dataReady, .readOk raw, tR, tV, g, q, c, oR, ⟨sp, .CALIBRATE, vpc⟩,
            w, cp, cr, aR⟩).trace.exitCode ≠ 0 ∧
      (cycleStep sign ⟨t, false⟩
          ⟨.dataReady, .readOk raw, tR, tV, g, q, c, oR, ⟨sp, .CALIBRATE, vpc⟩,
            w, cp, cr, aR⟩).trace.calibRun = false ∧
      (cycleStep sign ⟨t, false⟩
          ⟨.dataReady, .readOk raw, tR, tV, g, q, c, oR, ⟨sp, .CALIBRATE, vpc⟩,
            w, cp, cr, aR⟩).trace.calibSubmitted = false) ∧
    (cp = true → cr = false →
      (cycleStep sign ⟨t, false⟩
          ⟨.dataReady, .readOk raw, tR, tV, g, q, c, oR, ⟨sp, .CALIBRATE, vpc⟩,
            w, cp, cr, aR⟩).trace.fatalCause = some .calibResultsFail ∧
      (cycleStep sign ⟨t, false⟩
          ⟨.dataReady, .readOk raw, tR, tV, g, q, c, oR, ⟨sp, .CALIBRATE, vpc⟩,
            w, cp, cr, aR⟩).trace.exitCode ≠ 0 ∧
      (cycleStep sign ⟨t, false⟩
          ⟨.dataReady, .readOk raw, tR, tV, g, q, c, oR, ⟨sp, .CALIBRATE, vpc⟩,
            w, cp, cr, aR⟩).trace.calibRun = true ∧
      (cycleStep sign ⟨t, false⟩
          ⟨.dataReady, .readOk raw, tR, tV, g, q, c, oR, ⟨sp, .CALIBRATE, vpc⟩,
            w, cp, cr, aR⟩).trace.calibSubmitted = false) ∧
    (cp = true → cr = true →
      (cycleStep sign ⟨t, false⟩
          ⟨.dataReady, .readOk raw, tR, tV, g, q, c, oR, ⟨sp, .CALIBRATE, vpc⟩,
            w, cp, cr, aR⟩).trace.fatalCause = none ∧
      (cycleStep sign ⟨t, false⟩
          ⟨.dataReady, .readOk raw, tR, tV, g, q, c, oR, ⟨sp, .CALIBRATE, vpc⟩,
            w, cp, cr, aR⟩).trace.calibRun = true ∧
      (cycleStep sign ⟨t, false⟩
          ⟨.dataReady, .readOk raw, tR, tV, g, q, c, oR, ⟨sp, .CALIBRATE, vpc⟩,
            w, cp, cr, aR⟩).trace.calibSubmitted = true) := by
  have hod2 : ¬ oR < 0 := by omega
  refine ⟨?_, ?_, ?_⟩
  · intro hcp
    subst hcp
    simp [cycleStep, collectAndDispatch, dispatchAction, htemp, hgnss, hod2,
      fatalTrace, emptyTrace, EXIT_FAILURE]
  · intro hcp hcr
    subst hcp
    subst hcr
    simp [cycleStep, collectAndDispatch, dispatchAction, htemp, hgnss, hod2,
      fatalTrace, emptyTrace, EXIT_FAILURE]
  · intro hcp hcr
    subst hcp
    subst hcr
    simp [cycleStep, collectAndDispatch, dispatchAction, htemp, hgnss, hod2,
      fatalTrace, emptyTrace, EXIT_FAILURE]

/-- C8 witness: the theorem applied to a concrete calibration cycle whose
parameter fetch fails. -/
theorem C8_calibration_flow_witness :
    (false = false →
      (cycleStep 1 ⟨6, false⟩
          ⟨.dataReady, .readOk 0, 0, 0, .GNSS_VALID, 0, ⟨0, 0, true⟩, 0,
            ⟨0, .CALIBRATE, 0⟩, true, false, true, 0⟩).trace.fatalCause
          = some .calibParamsFail ∧
      (cycleStep 1 ⟨6, false⟩
          ⟨.dataReady, .readOk 0, 0, 0, .GNSS_VALID, 0, ⟨0, 0, true⟩, 0,
            ⟨0, .CALIBRATE, 0⟩, true, false, true, 0⟩).trace.exitCode ≠ 0 ∧
      (cycleStep 1 ⟨6, false⟩
          ⟨.dataReady, .readOk 0, 0, 0, .GNSS_VALID, 0, ⟨0, 0, true⟩, 0,
            ⟨0, .CALIBRATE, 0⟩, true, false, true, 0⟩).trace.calibRun = false ∧
      (cycleStep 1 ⟨6, false⟩
          ⟨.dataReady, .readOk 0, 0, 0, .GNSS_VALID, 0, ⟨0, 0, true⟩, 0,
            ⟨0, .CALIBRATE, 0⟩, true, false, true, 0⟩).trace.calibSubmitted
          = false) ∧
    (false = true → true = false →
      (cycleStep 1 ⟨6, false⟩
          ⟨.dataReady, .readOk 0, 0, 0, .GNSS_VALID, 0, ⟨0, 0, true⟩, 0,
            ⟨0, .CALIBRATE, 0⟩, true, false, true, 0⟩).trace.fatalCause
          = some .calibResultsFail ∧
      (cycleStep 1 ⟨6, false⟩
          ⟨.dataReady, .readOk 0, 0, 0, .GNSS_VALID, 0, ⟨0, 0, true⟩, 0,
            ⟨0, .CALIBRATE, 0⟩, true, false, true, 0⟩).trace.exitCode ≠ 0 ∧
      (cycleStep 1 ⟨6, false⟩
          ⟨.dataReady, .readOk 0, 0, 0, .GNSS_VALID, 0, ⟨0, 0, true⟩, 0,
            ⟨0, .CALIBRATE, 0⟩, true, false, true, 0⟩).trace.calibRun = true ∧
      (cycleStep 1 ⟨6, false⟩
          ⟨.dataReady, .readOk 0, 0, 0, .GNSS_VALID, 0, ⟨0, 0, true⟩, 0,
            ⟨0, .CALIBRATE, 0⟩, true, false, true, 0⟩).trace.calibSubmitted
          = false) ∧
    (false = true → true = true →
      (cycleStep 1 ⟨6, false⟩
          ⟨.dataReady, .readOk 0, 0, 0, .GNSS_VALID, 0, ⟨0, 0, true⟩, 0,
            ⟨0, .CALIBRATE, 0⟩, true, false, true, 0⟩).trace.fatalCause = none ∧
      (cycleStep 1 ⟨6, false⟩
          ⟨.dataReady, .readOk 0, 0, 0, .GNSS_VALID, 0, ⟨0, 0, true⟩, 0,
            ⟨0, .CALIBRATE, 0⟩, true, false, true, 0⟩).trace.calibRun = true ∧
      (cycleStep 1 ⟨6, false⟩
          ⟨.dataReady, .readOk 0, 0, 0, .GNSS_VALID, 0, ⟨0, 0, true⟩, 0,
            ⟨0, .CALIBRATE, 0⟩, true, false, true, 0⟩).trace.calibSubmitted
          = true) :=
  C8_calibration_flow 1 6 0 0 0 .GNSS_VALID 0 ⟨0, 0, true⟩ 0 0 0 true false
    true 0 (Or.inr (by decide)) (by decide) (by decide)

/-- C10 (confirmed): the fixed 5 second inter-cycle sleep happens exactly on
the iterations that complete their dispatch: an iteration sleeps if and only
if it is neither fatal nor a transient retry nor a cycle discarded because
ignore_next_irq was set. -/
theorem C10_sleep_iff_dispatch (sign : Int) (s : LoopState) (env : CycleEnv) :
    (cycleStep sign s env).trace.slept = true ↔
      ((cycleStep sign s env).trace.fatalCause = none ∧
       (cycleStep sign s env).trace.retried = false ∧
       (cycleStep sign s env).trace.skippedIgnore = false) := by
  rcases s with ⟨t, ig⟩
  rcases env with ⟨sel, rd, tR, tV, g, q, c, oR, oO, w, cp, cr, aR⟩
  cases sel with
  | timeout => simp [cycleStep, fatalTrace, emptyTrace]
  | selErr en =>
    simp only [cycleStep]
    split <;> simp [retryTrace, fatalTrace, emptyTrace]
  | dataReady =>
    cases rd with
    | readErr en =>
      simp only [cycleStep]
      split <;> simp [retryTrace, fatalTrace, emptyTrace]
    | readOk raw =>
      simp only [cycleStep, collectAndDispatch, dispatchAction]
      repeat' split
      all_goals simp [fatalTrace, emptyTrace, retryTrace]


end Oscillatord
